import Mathlib

/-!
# Verification of the Armor-IQ banking ledger against its specification

Shallow embedding of the repository's data-access layer (`crud.py`), its
SQLAlchemy table declarations (`models.py`), its request validation
(`schemas.py`) and the two front-ends (`main.py` HTTP handlers and
`mcp_server.py` tool handlers).

Modelling conventions:
* Money amounts are stored as `Float` in the original; they are modelled here
  as exact rationals (`ℚ`).  All claims under verification are ledger
  bookkeeping properties (which rows are written and with which values), not
  floating-point rounding properties.
* The store is a record of the two tables (`accounts`, `transactions`) plus
  the autoincrement counters for the two primary keys and a monotone clock
  that models `datetime.utcnow` stamping of `created_at` / `timestamp`.
* A Python function that mutates the session is modelled as a function
  returning its result together with the updated store.
-/

/-- models.py `TransactionType`: enumeration with members DEPOSIT and
WITHDRAWAL. -/
inductive TransactionType where
  | DEPOSIT
  | WITHDRAWAL
deriving DecidableEq

/-- models.py `Account`: one row of the `accounts` table
(id, owner_name, balance, created_at). -/
structure Account where
  id : Nat
  owner_name : String
  balance : ℚ
  created_at : Nat
deriving DecidableEq

/-- models.py `Transaction`: one row of the `transactions` table
(id, account_id, type, amount, timestamp). -/
structure Transaction where
  id : Nat
  account_id : Nat
  type : TransactionType
  amount : ℚ
  timestamp : Nat
deriving DecidableEq

/-- The relational store: the two tables in insertion order, the
autoincrement counters for the primary keys, and the monotone clock used to
stamp rows. -/
structure DB where
  accounts : List Account
  transactions : List Transaction
  next_account_id : Nat
  next_transaction_id : Nat
  clock : Nat
deriving DecidableEq

/-- A freshly created store (both tables empty, ids starting at 1). -/
def emptyDB : DB := ⟨[], [], 1, 1, 0⟩

/-- Declared constraints of one column, transcribed from a SQLAlchemy
`Column(...)` declaration. -/
structure ColumnSpec where
  nullable : Bool
  unique : Bool
  indexed : Bool
deriving DecidableEq

/-- models.py line 18:
`owner_name = Column(String(255), nullable=False, index=True)` —
non-nullable and indexed, with no `unique=True` flag. -/
def accounts_owner_name_column : ColumnSpec :=
  { nullable := false, unique := false, indexed := true }

/-- crud.py `get_account_by_id`: first `accounts` row whose id matches. -/
def get_account_by_id (db : DB) (account_id : Nat) : Option Account :=
  db.accounts.find? (fun a => a.id == account_id)

/-- crud.py `get_account_by_owner_name`: first `accounts` row whose
owner_name matches (exact, case-sensitive string equality). -/
def get_account_by_owner_name (db : DB) (owner_name : String) : Option Account :=
  db.accounts.find? (fun a => a.owner_name == owner_name)

/-- crud.py `create_transaction`: insert one `transactions` row with the next
id and the current timestamp; return the row and the updated store. -/
def create_transaction (db : DB) (account_id : Nat) (transaction_type : TransactionType)
    (amount : ℚ) : Transaction × DB :=
  let t : Transaction :=
    ⟨db.next_transaction_id, account_id, transaction_type, amount, db.clock⟩
  (t, { db with
          transactions := db.transactions ++ [t],
          next_transaction_id := db.next_transaction_id + 1,
          clock := db.clock + 1 })

/-- crud.py `create_account`: insert one `accounts` row with
`balance = initial_balance`; then, only if `initial_balance > 0`, insert a
DEPOSIT transaction of that amount.  No duplicate-owner check happens here. -/
def create_account (db : DB) (owner_name : String) (initial_balance : ℚ) : Account × DB :=
  let account : Account := ⟨db.next_account_id, owner_name, initial_balance, db.clock⟩
  let db1 : DB := { db with
                      accounts := db.accounts ++ [account],
                      next_account_id := db.next_account_id + 1,
                      clock := db.clock + 1 }
  if initial_balance > 0 then
    let r := create_transaction db1 account.id TransactionType.DEPOSIT initial_balance
    (account, r.2)
  else
    (account, db1)

/-- crud.py `update_account_balance`: set the balance of the given account's
row and return the refreshed account. -/
def update_account_balance (db : DB) (account : Account) (new_balance : ℚ) :
    Account × DB :=
  ({ account with balance := new_balance },
   { db with
       accounts := db.accounts.map (fun a =>
         if a.id == account.id then { a with balance := new_balance } else a) })

/-- The SQL `ORDER BY timestamp DESC` relation on transaction rows. -/
def tsDesc (s t : Transaction) : Prop := t.timestamp ≤ s.timestamp

instance : DecidableRel tsDesc := fun s t => Nat.decLe t.timestamp s.timestamp

instance : IsTotal Transaction tsDesc :=
  ⟨fun s t => le_total t.timestamp s.timestamp⟩

instance : IsTrans Transaction tsDesc :=
  ⟨fun _ _ _ h1 h2 => le_trans h2 h1⟩

/-- crud.py `get_transactions_by_account`: the account's transactions ordered
by timestamp descending, then `OFFSET offset LIMIT limit`. -/
def get_transactions_by_account (db : DB) (account_id : Nat)
    (limit : Nat := 50) (offset : Nat := 0) : List Transaction :=
  ((((db.transactions.filter (fun t => t.account_id == account_id)).insertionSort
      tsDesc).drop offset).take limit)

/-- crud.py `get_transaction_count_by_account`: total number of the account's
transaction rows (takes no limit/offset). -/
def get_transaction_count_by_account (db : DB) (account_id : Nat) : Nat :=
  (db.transactions.filter (fun t => t.account_id == account_id)).length

/-- crud.py `deposit`: unconditionally set balance to `balance + amount`,
then insert one DEPOSIT transaction of `amount`. -/
def deposit (db : DB) (account : Account) (amount : ℚ) : Account × DB :=
  let new_balance := account.balance + amount
  let r1 := update_account_balance db account new_balance
  let r2 := create_transaction r1.2 r1.1.id TransactionType.DEPOSIT amount
  (r1.1, r2.2)

/-- crud.py `withdraw`: return the `None` sentinel (store untouched) when
`account.balance < amount`; otherwise set balance to `balance - amount` and
insert one WITHDRAWAL transaction of `amount`. -/
def withdraw (db : DB) (account : Account) (amount : ℚ) : Option Account × DB :=
  if account.balance < amount then
    (none, db)
  else
    let new_balance := account.balance - amount
    let r1 := update_account_balance db account new_balance
    let r2 := create_transaction r1.2 r1.1.id TransactionType.WITHDRAWAL amount
    (some r1.1, r2.2)

/-! ## Front-end input handling -/

/-- The whitespace set stripped by Python's `str.strip()` (ASCII range,
as used by both front-ends on owner names). -/
def isPySpace (c : Char) : Bool :=
  c == ' ' || c == '\t' || c == '\n' || c == '\r' ||
  c == Char.ofNat 11 || c == Char.ofNat 12

/-- Python `str.strip()` on a character list: drop leading and trailing
whitespace. -/
def pyStripList (l : List Char) : List Char :=
  ((l.dropWhile isPySpace).reverse.dropWhile isPySpace).reverse

/-- Python `str.strip()`. -/
def pyStrip (s : String) : String := ⟨pyStripList s.data⟩

/-- Error sentinels surfaced by the HTTP front-end (main.py): 422 for a body
rejected by pydantic/FastAPI validation, 409, 404, 400. -/
inductive ApiError where
  | ValidationError
  | DuplicateOwner
  | NotFound
  | InsufficientFunds
deriving DecidableEq

/-- schemas.py `AccountCreate`: `owner_name` with `min_length=1`,
`max_length=255` checked on the raw value, `initial_balance` with `ge=0`;
then `validate_owner_name` strips the name and rejects a whitespace-only
name, the stripped name becoming the field value. -/
def accountCreate_validate (owner_name : String) (initial_balance : ℚ) :
    Option String :=
  if owner_name.data.length < 1 then none
  else if 255 < owner_name.data.length then none
  else if initial_balance < 0 then none
  else if (pyStrip owner_name).data.length = 0 then none
  else some (pyStrip owner_name)

/-- main.py `create_account` endpoint: pydantic validation of the body, then
the duplicate-owner check via `crud.get_account_by_owner_name`, then
`crud.create_account`. -/
def http_create_account (db : DB) (owner_name : String) (initial_balance : ℚ) :
    Except ApiError Account × DB :=
  match accountCreate_validate owner_name initial_balance with
  | none => (Except.error ApiError.ValidationError, db)
  | some name =>
    match get_account_by_owner_name db name with
    | some _ => (Except.error ApiError.DuplicateOwner, db)
    | none =>
      let r := create_account db name initial_balance
      (Except.ok r.1, r.2)

/-- main.py `deposit` endpoint: `DepositRequest` requires `amount > 0`
(422 otherwise), 404 when the account id is unknown, then `crud.deposit`. -/
def http_deposit (db : DB) (account_id : Nat) (amount : ℚ) :
    Except ApiError Account × DB :=
  if amount ≤ 0 then (Except.error ApiError.ValidationError, db)
  else
    match get_account_by_id db account_id with
    | none => (Except.error ApiError.NotFound, db)
    | some account =>
      let r := deposit db account amount
      (Except.ok r.1, r.2)

/-- main.py `withdraw` endpoint: `WithdrawRequest` requires `amount > 0`,
404 when the account id is unknown, 400 when `balance < amount`, then
`crud.withdraw`. -/
def http_withdraw (db : DB) (account_id : Nat) (amount : ℚ) :
    Except ApiError Account × DB :=
  if amount ≤ 0 then (Except.error ApiError.ValidationError, db)
  else
    match get_account_by_id db account_id with
    | none => (Except.error ApiError.NotFound, db)
    | some account =>
      if account.balance < amount then (Except.error ApiError.InsufficientFunds, db)
      else
        match withdraw db account amount with
        | (some acct, db1) => (Except.ok acct, db1)
        | (none, db1) => (Except.error ApiError.InsufficientFunds, db1)

/-- main.py `get_transactions` endpoint: FastAPI validates
`limit ∈ [1, 100]` and `offset ≥ 0` (422 otherwise), 404 when the account id
is unknown, then the paginated page plus the total count. -/
def http_get_transactions (db : DB) (account_id : Nat) (limit offset : Int) :
    Except ApiError (List Transaction × Nat) × DB :=
  if limit < 1 ∨ 100 < limit ∨ offset < 0 then
    (Except.error ApiError.ValidationError, db)
  else
    match get_account_by_id db account_id with
    | none => (Except.error ApiError.NotFound, db)
    | some _ =>
      (Except.ok (get_transactions_by_account db account_id limit.toNat offset.toNat,
                  get_transaction_count_by_account db account_id), db)

/-- mcp_server.py `call_tool`, `create_account` branch: strip the owner name,
reject an empty result and a negative initial balance, duplicate-owner check,
then `crud.create_account`.  Errors are returned as strings. -/
def mcp_create_account (db : DB) (owner_name : String) (initial_balance : ℚ) :
    Except String Account × DB :=
  if (pyStrip owner_name).data.length = 0 then
    (Except.error "Error: Owner name cannot be empty", db)
  else if initial_balance < 0 then
    (Except.error "Error: Initial balance cannot be negative", db)
  else
    match get_account_by_owner_name db (pyStrip owner_name) with
    | some _ =>
      (Except.error "Error: Account with this owner name already exists", db)
    | none =>
      let r := create_account db (pyStrip owner_name) initial_balance
      (Except.ok r.1, r.2)

/-- mcp_server.py `call_tool`, `deposit` branch: reject a non-positive
amount, account lookup, then `crud.deposit`. -/
def mcp_deposit (db : DB) (account_id : Nat) (amount : ℚ) :
    Except String Account × DB :=
  if amount ≤ 0 then
    (Except.error "Error: Amount must be a positive number", db)
  else
    match get_account_by_id db account_id with
    | none => (Except.error "Error: Account not found", db)
    | some account =>
      let r := deposit db account amount
      (Except.ok r.1, r.2)

/-- mcp_server.py `call_tool`, `withdraw` branch: reject a non-positive
amount, account lookup, insufficient-funds check, then `crud.withdraw`. -/
def mcp_withdraw (db : DB) (account_id : Nat) (amount : ℚ) :
    Except String Account × DB :=
  if amount ≤ 0 then
    (Except.error "Error: Amount must be a positive number", db)
  else
    match get_account_by_id db account_id with
    | none => (Except.error "Error: Account not found", db)
    | some account =>
      if account.balance < amount then
        (Except.error "Error: Insufficient funds", db)
      else
        match withdraw db account amount with
        | (some acct, db1) => (Except.ok acct, db1)
        | (none, db1) => (Except.error "Error: Insufficient funds", db1)

/-- mcp_server.py `call_tool`, `get_transactions` branch: account lookup,
then the page and the total count.  The provided `limit` is passed to the
data layer unchecked (no 1–100 clamp) and no offset argument exists
(offset is always 0). -/
def mcp_get_transactions (db : DB) (account_id : Nat) (limit : Nat := 50) :
    Except String (List Transaction × Nat) × DB :=
  match get_account_by_id db account_id with
  | none => (Except.error "Error: Account not found", db)
  | some _ =>
    (Except.ok (get_transactions_by_account db account_id limit 0,
                get_transaction_count_by_account db account_id), db)

/-! ## Ledger bookkeeping -/

/-- Sum of the DEPOSIT amounts recorded for an account. -/
def depositSumL (ts : List Transaction) (account_id : Nat) : ℚ :=
  ((ts.filter (fun t =>
      t.account_id == account_id && t.type == TransactionType.DEPOSIT)).map
    Transaction.amount).sum

/-- Sum of the WITHDRAWAL amounts recorded for an account. -/
def withdrawalSumL (ts : List Transaction) (account_id : Nat) : ℚ :=
  ((ts.filter (fun t =>
      t.account_id == account_id && t.type == TransactionType.WITHDRAWAL)).map
    Transaction.amount).sum

/-- Net value of the account's recorded ledger:
sum of DEPOSIT amounts minus sum of WITHDRAWAL amounts. -/
def ledgerSum (db : DB) (account_id : Nat) : ℚ :=
  depositSumL db.transactions account_id - withdrawalSumL db.transactions account_id

/-- One mutating operation addressed to an account, as issued through the
front door (lookup by id, then `crud.deposit` / `crud.withdraw`). -/
inductive Op where
  | dep (amount : ℚ)
  | wd (amount : ℚ)

/-- Apply one operation: resolve the account by id (as every front-end does)
and run the corresponding crud function; a withdrawal rejected by the
insufficient-funds guard leaves the store untouched. -/
def applyOp (db : DB) (account_id : Nat) (op : Op) : DB :=
  match get_account_by_id db account_id with
  | none => db
  | some account =>
    match op with
    | Op.dep amount => (deposit db account amount).2
    | Op.wd amount => (withdraw db account amount).2

/-- Run a sequence of operations against one account. -/
def runOps (db : DB) (account_id : Nat) : List Op → DB
  | [] => db
  | op :: ops => runOps (applyOp db account_id op) account_id ops

/-! ## Unfolding lemmas for the crud operations -/

theorem deposit_eq (db : DB) (account : Account) (amount : ℚ) :
    deposit db account amount =
      ({ account with balance := account.balance + amount },
       { db with
           accounts := db.accounts.map (fun a =>
             if a.id == account.id then { a with balance := account.balance + amount } else a),
           transactions := db.transactions ++
             [⟨db.next_transaction_id, account.id, TransactionType.DEPOSIT, amount, db.clock⟩],
           next_transaction_id := db.next_transaction_id + 1,
           clock := db.clock + 1 }) := rfl

theorem withdraw_of_lt (db : DB) (account : Account) (amount : ℚ)
    (h : account.balance < amount) : withdraw db account amount = (none, db) := by
  simp [withdraw, h]

theorem withdraw_of_ge (db : DB) (account : Account) (amount : ℚ)
    (h : ¬ account.balance < amount) :
    withdraw db account amount =
      (some { account with balance := account.balance - amount },
       { db with
           accounts := db.accounts.map (fun a =>
             if a.id == account.id then { a with balance := account.balance - amount } else a),
           transactions := db.transactions ++
             [⟨db.next_transaction_id, account.id, TransactionType.WITHDRAWAL, amount, db.clock⟩],
           next_transaction_id := db.next_transaction_id + 1,
           clock := db.clock + 1 }) := by
  simp [withdraw, h, update_account_balance, create_transaction]

theorem create_account_of_pos (db : DB) (owner : String) (b0 : ℚ) (h : 0 < b0) :
    create_account db owner b0 =
      (⟨db.next_account_id, owner, b0, db.clock⟩,
       { db with
           accounts := db.accounts ++ [⟨db.next_account_id, owner, b0, db.clock⟩],
           transactions := db.transactions ++
             [⟨db.next_transaction_id, db.next_account_id, TransactionType.DEPOSIT, b0, db.clock + 1⟩],
           next_account_id := db.next_account_id + 1,
           next_transaction_id := db.next_transaction_id + 1,
           clock := db.clock + 2 }) := by
  simp [create_account, h, create_transaction]

theorem create_account_of_nonpos (db : DB) (owner : String) (b0 : ℚ) (h : ¬ 0 < b0) :
    create_account db owner b0 =
      (⟨db.next_account_id, owner, b0, db.clock⟩,
       { db with
           accounts := db.accounts ++ [⟨db.next_account_id, owner, b0, db.clock⟩],
           next_account_id := db.next_account_id + 1,
           clock := db.clock + 1 }) := by
  simp [create_account, h]

/-! ## Claim C2: withdraw semantics -/

/-- C2: for every account and amount, when `account.balance < amount` the
core withdraw returns the `None` sentinel and the store is unchanged (no
balance update, no transaction row); otherwise it sets the balance to
`balance - amount`, appends exactly one WITHDRAWAL transaction of that
amount, and returns the updated account. -/
theorem C2_withdraw_spec (db : DB) (account : Account) (amount : ℚ) :
    (account.balance < amount → withdraw db account amount = (none, db)) ∧
    (¬ account.balance < amount →
      ∃ t : Transaction,
        withdraw db account amount =
          (some { account with balance := account.balance - amount },
           { db with
               accounts := db.accounts.map (fun a =>
                 if a.id == account.id then
                   { a with balance := account.balance - amount }
                 else a),
               transactions := db.transactions ++ [t],
               next_transaction_id := db.next_transaction_id + 1,
               clock := db.clock + 1 }) ∧
        t.account_id = account.id ∧ t.type = TransactionType.WITHDRAWAL ∧
        t.amount = amount) := by
  refine ⟨fun h => withdraw_of_lt db account amount h, fun h => ?_⟩
  exact ⟨⟨db.next_transaction_id, account.id, TransactionType.WITHDRAWAL, amount, db.clock⟩,
    withdraw_of_ge db account amount h, rfl, rfl, rfl⟩

/-- Witness for C2 at a concrete input: on an account with balance 100, a
withdrawal of 200 is rejected with the store unchanged, and a withdrawal of
50 appends one WITHDRAWAL row of 50. -/
theorem C2_withdraw_spec_witness :
    withdraw emptyDB ⟨1, "alice", 100, 0⟩ 200 = (none, emptyDB) ∧
    (∃ t : Transaction,
      (withdraw emptyDB ⟨1, "alice", 100, 0⟩ 50).2.transactions = [] ++ [t] ∧
      t.type = TransactionType.WITHDRAWAL ∧ t.amount = 50) := by
  refine ⟨(C2_withdraw_spec emptyDB ⟨1, "alice", 100, 0⟩ 200).1 (by decide), ?_⟩
  obtain ⟨t, heq, -, hty, hamt⟩ :=
    (C2_withdraw_spec emptyDB ⟨1, "alice", 100, 0⟩ 50).2 (by decide)
  refine ⟨t, ?_, hty, hamt⟩
  rw [heq]
  rfl

/-! ## Claim C6: create_account semantics -/

/-- C6: a successful CreateAccount persists the account with
`balance = initial_balance`, and appends a DEPOSIT transaction of
`initial_balance` if and only if `initial_balance > 0`; in particular a
creation with initial balance 0 appends no transaction row. -/
theorem C6_create_account_spec (db : DB) (owner : String) (b0 : ℚ) (hb0 : 0 ≤ b0) :
    ∃ acct db1, create_account db owner b0 = (acct, db1) ∧
      acct.owner_name = owner ∧ acct.balance = b0 ∧
      db1.accounts = db.accounts ++ [acct] ∧
      (0 < b0 → ∃ t : Transaction,
        db1.transactions = db.transactions ++ [t] ∧
        t.account_id = acct.id ∧ t.type = TransactionType.DEPOSIT ∧ t.amount = b0) ∧
      (¬ 0 < b0 → db1.transactions = db.transactions) := by
  by_cases h : 0 < b0
  · refine ⟨⟨db.next_account_id, owner, b0, db.clock⟩, _,
      create_account_of_pos db owner b0 h, rfl, rfl, rfl, fun _ => ?_, fun hc => absurd h hc⟩
    exact ⟨⟨db.next_transaction_id, db.next_account_id, TransactionType.DEPOSIT, b0, db.clock + 1⟩,
      rfl, rfl, rfl, rfl⟩
  · exact ⟨⟨db.next_account_id, owner, b0, db.clock⟩, _,
      create_account_of_nonpos db owner b0 h, rfl, rfl, rfl,
      fun hc => absurd hc h, fun _ => rfl⟩

/-- Witness for C6 at two concrete inputs: creating "alice" with initial
balance 100 appends one DEPOSIT row of 100; creating "bob" with initial
balance 0 appends no transaction row. -/
theorem C6_create_account_spec_witness :
    (∃ acct db1, create_account emptyDB "alice" 100 = (acct, db1) ∧
      acct.owner_name = "alice" ∧ acct.balance = 100 ∧
      db1.accounts = emptyDB.accounts ++ [acct] ∧
      (0 < (100 : ℚ) → ∃ t : Transaction,
        db1.transactions = emptyDB.transactions ++ [t] ∧
        t.account_id = acct.id ∧ t.type = TransactionType.DEPOSIT ∧ t.amount = 100) ∧
      (¬ 0 < (100 : ℚ) → db1.transactions = emptyDB.transactions)) ∧
    (∃ acct db1, create_account emptyDB "bob" 0 = (acct, db1) ∧
      acct.owner_name = "bob" ∧ acct.balance = 0 ∧
      db1.accounts = emptyDB.accounts ++ [acct] ∧
      (0 < (0 : ℚ) → ∃ t : Transaction,
        db1.transactions = emptyDB.transactions ++ [t] ∧
        t.account_id = acct.id ∧ t.type = TransactionType.DEPOSIT ∧ t.amount = 0) ∧
      (¬ 0 < (0 : ℚ) → db1.transactions = emptyDB.transactions)) :=
  ⟨C6_create_account_spec emptyDB "alice" 100 (by decide),
   C6_create_account_spec emptyDB "bob" 0 (by decide)⟩

/-! ## Claim C7: deposit semantics -/

/-- C7: for every account and positive amount, the core deposit sets the
account's balance to `balance + amount`, persists exactly that row change,
appends exactly one DEPOSIT transaction of `amount`, and returns the updated
account. -/
theorem C7_deposit_spec (db : DB) (account : Account) (amount : ℚ)
    (hpos : 0 < amount) :
    ∃ acct1 db1, deposit db account amount = (acct1, db1) ∧
      acct1 = { account with balance := account.balance + amount } ∧
      db1.accounts = db.accounts.map (fun a =>
        if a.id == account.id then { a with balance := account.balance + amount } else a) ∧
      ∃ t : Transaction,
        db1.transactions = db.transactions ++ [t] ∧
        t.account_id = account.id ∧ t.type = TransactionType.DEPOSIT ∧
        t.amount = amount :=
  ⟨{ account with balance := account.balance + amount }, _, deposit_eq db account amount,
    rfl, rfl,
    ⟨⟨db.next_transaction_id, account.id, TransactionType.DEPOSIT, amount, db.clock⟩,
      rfl, rfl, rfl, rfl⟩⟩

/-- Witness for C7 at a concrete input: depositing 50 into an account with
balance 100. -/
theorem C7_deposit_spec_witness :
    ∃ acct1 db1, deposit emptyDB ⟨1, "alice", 100, 0⟩ 50 = (acct1, db1) ∧
      acct1 = { Account.mk 1 "alice" 100 0 with balance := (100 : ℚ) + 50 } ∧
      db1.accounts = emptyDB.accounts.map (fun a =>
        if a.id == 1 then { a with balance := (100 : ℚ) + 50 } else a) ∧
      ∃ t : Transaction,
        db1.transactions = emptyDB.transactions ++ [t] ∧
        t.account_id = 1 ∧ t.type = TransactionType.DEPOSIT ∧ t.amount = 50 :=
  C7_deposit_spec emptyDB ⟨1, "alice", 100, 0⟩ 50 (by decide)

/-! ## Claim C9: frame effects of the mutating operations -/

/-- C9: each successful mutating operation appends exactly one account row
(create) or rewrites only the matching account rows (deposit/withdraw), and
appends exactly one transaction row for deposit, for a successful withdraw,
and for a creation with positive initial balance — never more than one; a
creation with non-positive initial balance and a rejected withdrawal insert
no transaction row, and a rejected withdrawal leaves the store untouched. -/
theorem C9_frame_effects (db : DB) (owner : String) (b0 : ℚ)
    (account : Account) (amount : ℚ) :
    ((create_account db owner b0).2.accounts
        = db.accounts ++ [(create_account db owner b0).1] ∧
      (0 < b0 → ∃ t : Transaction,
        (create_account db owner b0).2.transactions = db.transactions ++ [t]) ∧
      (¬ 0 < b0 → (create_account db owner b0).2.transactions = db.transactions)) ∧
    ((deposit db account amount).2.accounts
        = db.accounts.map (fun a =>
            if a.id == account.id then { a with balance := account.balance + amount } else a) ∧
      ∃ t : Transaction,
        (deposit db account amount).2.transactions = db.transactions ++ [t]) ∧
    ((account.balance < amount → (withdraw db account amount).2 = db) ∧
      (¬ account.balance < amount →
        (withdraw db account amount).2.accounts
            = db.accounts.map (fun a =>
                if a.id == account.id then { a with balance := account.balance - amount } else a) ∧
        ∃ t : Transaction,
          (withdraw db account amount).2.transactions = db.transactions ++ [t])) := by
  refine ⟨?_, ?_, ?_, ?_⟩
  · by_cases h : 0 < b0
    · rw [create_account_of_pos db owner b0 h]
      exact ⟨rfl, fun _ => ⟨_, rfl⟩, fun hc => absurd h hc⟩
    · rw [create_account_of_nonpos db owner b0 h]
      exact ⟨rfl, fun hc => absurd hc h, fun _ => rfl⟩
  · rw [deposit_eq]
    exact ⟨rfl, _, rfl⟩
  · intro h
    rw [withdraw_of_lt db account amount h]
  · intro h
    rw [withdraw_of_ge db account amount h]
    exact ⟨rfl, _, rfl⟩

/-- Witness for C9 at concrete inputs: creation with initial balance 100
appends one account row and one transaction row; a deposit of 50 appends one
transaction row; a withdrawal of 200 from balance 100 leaves the store
untouched. -/
theorem C9_frame_effects_witness :
    (create_account emptyDB "alice" 100).2.accounts
        = emptyDB.accounts ++ [(create_account emptyDB "alice" 100).1] ∧
    (∃ t : Transaction,
      (create_account emptyDB "alice" 100).2.transactions = emptyDB.transactions ++ [t]) ∧
    (∃ t : Transaction,
      (deposit emptyDB ⟨1, "alice", 100, 0⟩ 50).2.transactions = emptyDB.transactions ++ [t]) ∧
    (withdraw emptyDB ⟨1, "alice", 100, 0⟩ 200).2 = emptyDB := by
  obtain ⟨⟨hc1, hc2, -⟩, ⟨-, hd⟩, -⟩ :=
    C9_frame_effects emptyDB "alice" 100 ⟨1, "alice", 100, 0⟩ 50
  obtain ⟨-, -, hw1, -⟩ :=
    C9_frame_effects emptyDB "alice" 100 ⟨1, "alice", 100, 0⟩ 200
  exact ⟨hc1, hc2 (by decide), hd, hw1 (by decide)⟩

/-! ## Claim C8: transaction listing and counting -/

/-- C8: `get_transactions_by_account` is the account's transactions ordered
by timestamp descending, paginated by limit/offset (every returned row is
sorted descending and belongs to the account, and with offset 0 and the
total count as limit it returns exactly the account's transactions);
`get_transaction_count_by_account` is the total number of the account's
transaction rows and takes no limit or offset at all. -/
theorem C8_transactions_query_spec (db : DB) (account_id : Nat) (limit offset : Nat) :
    get_transactions_by_account db account_id limit offset
      = (((db.transactions.filter (fun t => t.account_id == account_id)).insertionSort
          tsDesc).drop offset).take limit ∧
    (get_transactions_by_account db account_id limit offset).Pairwise tsDesc ∧
    (∀ t ∈ get_transactions_by_account db account_id limit offset,
      t.account_id = account_id) ∧
    (get_transactions_by_account db account_id
        (get_transaction_count_by_account db account_id) 0).Perm
      (db.transactions.filter (fun t => t.account_id == account_id)) ∧
    get_transaction_count_by_account db account_id
      = (db.transactions.filter (fun t => t.account_id == account_id)).length := by
  have hsub : ∀ l m : Nat, List.Sublist (get_transactions_by_account db account_id l m)
      ((db.transactions.filter (fun t => t.account_id == account_id)).insertionSort tsDesc) :=
    fun l m => ((List.take_sublist _ _).trans (List.drop_sublist _ _))
  refine ⟨rfl, ?_, ?_, ?_, rfl⟩
  · exact List.Pairwise.sublist (hsub limit offset)
      (List.sorted_insertionSort tsDesc
        (db.transactions.filter (fun t => t.account_id == account_id)))
  · intro t ht
    have h1 : t ∈ (db.transactions.filter
        (fun t => t.account_id == account_id)).insertionSort tsDesc :=
      (hsub limit offset).mem ht
    have h2 := List.mem_insertionSort tsDesc |>.mp h1
    simpa using (List.of_mem_filter h2)
  · have hlen : ((db.transactions.filter
        (fun t => t.account_id == account_id)).insertionSort tsDesc).length
        = get_transaction_count_by_account db account_id :=
      (List.perm_insertionSort tsDesc _).length_eq
    have : get_transactions_by_account db account_id
        (get_transaction_count_by_account db account_id) 0
        = (db.transactions.filter (fun t => t.account_id == account_id)).insertionSort
            tsDesc := by
      unfold get_transactions_by_account
      rw [List.drop_zero, List.take_of_length_le (le_of_eq hlen)]
    rw [this]
    exact List.perm_insertionSort tsDesc _

/-- Witness for C8 at a concrete input: a store with three transactions for
account 1 inserted at increasing timestamps is listed most recent first. -/
theorem C8_transactions_query_spec_witness :
    ∃ db : DB,
      get_transactions_by_account db 1 50 0
        = (((db.transactions.filter (fun t => t.account_id == 1)).insertionSort
            tsDesc).drop 0).take 50 ∧
      (get_transactions_by_account db 1 50 0).Pairwise tsDesc ∧
      (∀ t ∈ get_transactions_by_account db 1 50 0, t.account_id = 1) ∧
      (get_transactions_by_account db 1 (get_transaction_count_by_account db 1) 0).Perm
        (db.transactions.filter (fun t => t.account_id == 1)) ∧
      get_transaction_count_by_account db 1
        = (db.transactions.filter (fun t => t.account_id == 1)).length :=
  ⟨(runOps (create_account emptyDB "alice" 100).2 1 [Op.dep 50, Op.wd 200, Op.wd 150]),
    C8_transactions_query_spec _ 1 50 0⟩

/-! ## Helper lemmas about account creation and owner-name lookup -/

theorem create_account_fst (db : DB) (owner : String) (b0 : ℚ) :
    (create_account db owner b0).1 = ⟨db.next_account_id, owner, b0, db.clock⟩ := by
  by_cases h : 0 < b0
  · rw [create_account_of_pos db owner b0 h]
  · rw [create_account_of_nonpos db owner b0 h]

theorem create_account_accounts (db : DB) (owner : String) (b0 : ℚ) :
    (create_account db owner b0).2.accounts
      = db.accounts ++ [⟨db.next_account_id, owner, b0, db.clock⟩] := by
  by_cases h : 0 < b0
  · rw [create_account_of_pos db owner b0 h]
  · rw [create_account_of_nonpos db owner b0 h]

theorem get_account_by_owner_name_create (db : DB) (owner : String) (b0 : ℚ) :
    (get_account_by_owner_name (create_account db owner b0).2 owner).isSome := by
  unfold get_account_by_owner_name
  refine List.find?_isSome.mpr ⟨⟨db.next_account_id, owner, b0, db.clock⟩, ?_, by simp⟩
  rw [create_account_accounts]
  simp

theorem owner_not_mem_of_find?_none {db : DB} {name : String}
    (h : get_account_by_owner_name db name = none) :
    name ∉ db.accounts.map Account.owner_name := by
  unfold get_account_by_owner_name at h
  rw [List.find?_eq_none] at h
  intro hmem
  obtain ⟨a, ha, hfa⟩ := List.mem_map.mp hmem
  exact (h a ha) (by simp [hfa])

theorem accountCreate_validate_some {raw : String} {b0 : ℚ} {name : String}
    (h : accountCreate_validate raw b0 = some name) : name = pyStrip raw := by
  unfold accountCreate_validate at h
  split_ifs at h
  exact (Option.some.injEq _ _ ▸ h).symm

theorem accountCreate_validate_of (raw : String) (b0 : ℚ)
    (h1 : 1 ≤ raw.data.length) (h2 : raw.data.length ≤ 255) (h3 : ¬ b0 < 0)
    (h4 : (pyStrip raw).data.length ≠ 0) :
    accountCreate_validate raw b0 = some (pyStrip raw) := by
  unfold accountCreate_validate
  rw [if_neg (by omega), if_neg (by omega), if_neg h3, if_neg h4]

/-- A duplicate owner name is rejected by both front-ends before any write:
this is where the `DuplicateOwner` check lives, not in the data layer. -/
theorem frontend_duplicate_reject (db : DB) (raw : String) (b0 : ℚ)
    (hdup : (get_account_by_owner_name db (pyStrip raw)).isSome)
    (hne : (pyStrip raw).data.length ≠ 0)
    (hb0 : ¬ b0 < 0)
    (hl1 : 1 ≤ raw.data.length) (hl2 : raw.data.length ≤ 255) :
    http_create_account db raw b0 = (Except.error ApiError.DuplicateOwner, db) ∧
    mcp_create_account db raw b0 =
      (Except.error "Error: Account with this owner name already exists", db) := by
  obtain ⟨a, ha⟩ := Option.isSome_iff_exists.mp hdup
  constructor
  · simp only [http_create_account,
      accountCreate_validate_of raw b0 hl1 hl2 hb0 hne, ha]
  · simp only [mcp_create_account, hne, hb0, ha, if_neg, ite_false]

/-! ## Structure of the stripped owner name -/

theorem dropWhile_head?_false (p : α → Bool) (l : List α) :
    ∀ c, (l.dropWhile p).head? = some c → p c = false := by
  induction l with
  | nil => intro c hc; simp at hc
  | cons x xs ih =>
    intro c hc
    by_cases hx : p x
    · rw [List.dropWhile_cons_of_pos hx] at hc
      exact ih c hc
    · rw [List.dropWhile_cons_of_neg hx] at hc
      simp only [List.head?_cons, Option.some.injEq] at hc
      rw [← hc]
      exact Bool.of_not_eq_true hx

theorem pyStripList_extends (l : List Char) :
    ∃ s, l.dropWhile isPySpace = pyStripList l ++ s := by
  have h : ∃ t, t ++ ((l.dropWhile isPySpace).reverse.dropWhile isPySpace)
      = (l.dropWhile isPySpace).reverse := List.dropWhile_suffix isPySpace
  obtain ⟨t, ht⟩ := h
  refine ⟨t.reverse, ?_⟩
  have h2 := congrArg List.reverse ht
  rw [List.reverse_append, List.reverse_reverse] at h2
  exact h2.symm

theorem pyStripList_head?_not_space (l : List Char) :
    ∀ c, (pyStripList l).head? = some c → isPySpace c = false := by
  intro c hc
  obtain ⟨s, hs⟩ := pyStripList_extends l
  have hhead : (l.dropWhile isPySpace).head? = some c := by
    rw [hs]
    cases hl : pyStripList l with
    | nil => rw [hl] at hc; simp at hc
    | cons x xs =>
      rw [hl] at hc
      simp only [List.head?_cons, Option.some.injEq] at hc
      simp [hc]
  exact dropWhile_head?_false isPySpace l c hhead

theorem pyStripList_getLast?_not_space (l : List Char) :
    ∀ c, (pyStripList l).getLast? = some c → isPySpace c = false := by
  intro c hc
  have hc2 : ((l.dropWhile isPySpace).reverse.dropWhile isPySpace).head? = some c := by
    have : pyStripList l
        = ((l.dropWhile isPySpace).reverse.dropWhile isPySpace).reverse := rfl
    rw [this, List.getLast?_reverse] at hc
    exact hc
  exact dropWhile_head?_false isPySpace _ c hc2

/-! ## Claim C3: where the duplicate-owner check lives -/

/-- C3 counterexample: the data-layer `create_account` (the "core") performs
no duplicate check at all — called a second time with the owner name
"alice" already present it succeeds and inserts a second account row, so the
duplicate condition is not "detected by the core itself via a
GetAccountByOwner check before the create". -/
theorem C3_core_create_no_duplicate_check_counterexample :
    (get_account_by_owner_name (create_account emptyDB "alice" 0).2 "alice").isSome
      = true ∧
    (create_account (create_account emptyDB "alice" 0).2 "alice" 0).2.accounts.map
        Account.owner_name = ["alice", "alice"] ∧
    (create_account (create_account emptyDB "alice" 0).2 "alice" 0).2.accounts.map
        Account.id = [1, 2] := by
  refine ⟨rfl, rfl, rfl⟩

/-- C3 (amended): for an owner name that already exists, a second
CreateAccount issued through either front-end fails with the duplicate-owner
error and leaves the store unchanged (no account row, no transaction row);
the detection happens in the front-end handler via
`get_account_by_owner_name` before it calls the data layer's
`create_account`, which itself performs no duplicate check. -/
theorem C3_duplicate_rejected_by_frontends (db : DB) (raw : String) (b0 : ℚ)
    (hdup : (get_account_by_owner_name db (pyStrip raw)).isSome)
    (hne : (pyStrip raw).data.length ≠ 0)
    (hb0 : 0 ≤ b0)
    (hl1 : 1 ≤ raw.data.length) (hl2 : raw.data.length ≤ 255) :
    http_create_account db raw b0 = (Except.error ApiError.DuplicateOwner, db) ∧
    mcp_create_account db raw b0 =
      (Except.error "Error: Account with this owner name already exists", db) :=
  frontend_duplicate_reject db raw b0 hdup hne (not_lt.mpr hb0) hl1 hl2

/-- Witness for C3 at a concrete input: with "alice" already registered,
both front-ends reject a second creation and return the store unchanged. -/
theorem C3_duplicate_rejected_by_frontends_witness :
    http_create_account (create_account emptyDB "alice" 0).2 "alice" 5
        = (Except.error ApiError.DuplicateOwner, (create_account emptyDB "alice" 0).2) ∧
    mcp_create_account (create_account emptyDB "alice" 0).2 "alice" 5
        = (Except.error "Error: Account with this owner name already exists",
           (create_account emptyDB "alice" 0).2) :=
  C3_duplicate_rejected_by_frontends (create_account emptyDB "alice" 0).2 "alice" 5
    (by decide) (by decide) (by decide) (by decide) (by decide)

/-! ## Claim C4: owner-name uniqueness is not a store constraint -/

/-- C4 counterexample: the `owner_name` column is declared without
`unique=True` (only non-nullable and indexed), and indeed a store state with
two distinct persisted accounts (ids 1 and 2) sharing the owner_name
"alice" is reachable through the store's own insert path. -/
theorem C4_owner_name_not_unique_counterexample :
    accounts_owner_name_column.unique = false ∧
    accounts_owner_name_column.indexed = true ∧
    ∃ a b : Account,
      a ∈ (create_account (create_account emptyDB "alice" 0).2 "alice" 0).2.accounts ∧
      b ∈ (create_account (create_account emptyDB "alice" 0).2 "alice" 0).2.accounts ∧
      a ≠ b ∧ a.owner_name = b.owner_name := by
  refine ⟨rfl, rfl, ⟨1, "alice", 0, 0⟩, ⟨2, "alice", 0, 1⟩, ?_, ?_, by decide, rfl⟩
  · show _ ∈ [(⟨1, "alice", 0, 0⟩ : Account), ⟨2, "alice", 0, 1⟩]
    simp
  · show _ ∈ [(⟨1, "alice", 0, 0⟩ : Account), ⟨2, "alice", 0, 1⟩]
    simp

/-- C4 (amended): the persisted accounts table does not enforce owner_name
uniqueness — the column is only indexed and non-nullable, and duplicates are
representable and reachable through the data layer; distinctness of owner
names is maintained solely by the front-ends' pre-creation duplicate check,
which preserves the no-duplicates invariant across both front-ends. -/
theorem C4_uniqueness_enforced_by_frontends (db : DB) (raw : String) (b0 : ℚ)
    (h : (db.accounts.map Account.owner_name).Nodup) :
    ((http_create_account db raw b0).2.accounts.map Account.owner_name).Nodup ∧
    ((mcp_create_account db raw b0).2.accounts.map Account.owner_name).Nodup ∧
    accounts_owner_name_column.unique = false ∧
    accounts_owner_name_column.indexed = true := by
  refine ⟨?_, ?_, rfl, rfl⟩
  · unfold http_create_account
    split
    · exact h
    next name hv =>
      split
      · exact h
      next hf =>
        show ((create_account db name b0).2.accounts.map Account.owner_name).Nodup
        rw [create_account_accounts, List.map_append]
        exact List.Nodup.append h (List.nodup_singleton _)
          (List.disjoint_singleton.mpr (owner_not_mem_of_find?_none hf))
  · unfold mcp_create_account
    split
    · exact h
    · split
      · exact h
      · split
        · exact h
        next hf =>
          show ((create_account db (pyStrip raw) b0).2.accounts.map
            Account.owner_name).Nodup
          rw [create_account_accounts, List.map_append]
          exact List.Nodup.append h (List.nodup_singleton _)
            (List.disjoint_singleton.mpr (owner_not_mem_of_find?_none hf))

/-- Witness for C4 at a concrete input. -/
theorem C4_uniqueness_enforced_by_frontends_witness :
    ((http_create_account emptyDB "alice" 5).2.accounts.map Account.owner_name).Nodup ∧
    ((mcp_create_account emptyDB "alice" 5).2.accounts.map Account.owner_name).Nodup ∧
    accounts_owner_name_column.unique = false ∧
    accounts_owner_name_column.indexed = true :=
  C4_uniqueness_enforced_by_frontends emptyDB "alice" 5 (by decide)

/-! ## Claim C10: owner names are stripped by both front-ends -/

theorem accountCreate_validate_none_of_empty (raw : String) (b0 : ℚ)
    (h : (pyStrip raw).data.length = 0) :
    accountCreate_validate raw b0 = none := by
  unfold accountCreate_validate
  split_ifs <;> rfl

theorem accountCreate_validate_some_conds {raw : String} {b0 : ℚ} {name : String}
    (h : accountCreate_validate raw b0 = some name) :
    ¬ b0 < 0 ∧ (pyStrip raw).data.length ≠ 0 := by
  unfold accountCreate_validate at h
  split_ifs at h with a1 a2 a3 a4
  exact ⟨a3, a4⟩

theorem http_create_account_ok {db : DB} {raw : String} {b0 : ℚ}
    {acct : Account} {db1 : DB}
    (h : http_create_account db raw b0 = (Except.ok acct, db1)) :
    accountCreate_validate raw b0 = some (pyStrip raw) ∧
    get_account_by_owner_name db (pyStrip raw) = none ∧
    acct = (create_account db (pyStrip raw) b0).1 ∧
    db1 = (create_account db (pyStrip raw) b0).2 := by
  unfold http_create_account at h
  split at h
  · simp at h
  next name hv =>
    split at h
    · simp at h
    next hf =>
      have hn : name = pyStrip raw := accountCreate_validate_some hv
      subst hn
      have h1 := congrArg Prod.fst h
      have h2 := congrArg Prod.snd h
      simp only [] at h1 h2
      exact ⟨hv, hf, (Except.ok.injEq _ _ ▸ h1).symm, h2.symm⟩

theorem mcp_create_account_ok {db : DB} {raw : String} {b0 : ℚ}
    {acct : Account} {db1 : DB}
    (h : mcp_create_account db raw b0 = (Except.ok acct, db1)) :
    (pyStrip raw).data.length ≠ 0 ∧ ¬ b0 < 0 ∧
    get_account_by_owner_name db (pyStrip raw) = none ∧
    acct = (create_account db (pyStrip raw) b0).1 ∧
    db1 = (create_account db (pyStrip raw) b0).2 := by
  unfold mcp_create_account at h
  split at h
  · simp at h
  next hlen =>
    split at h
    · simp at h
    next hneg =>
      split at h
      · simp at h
      next hf =>
        have h1 := congrArg Prod.fst h
        have h2 := congrArg Prod.snd h
        simp only [] at h1 h2
        exact ⟨hlen, hneg, hf, (Except.ok.injEq _ _ ▸ h1).symm, h2.symm⟩

/-- C10: every account persisted through either front-end carries the
stripped owner name (no leading or trailing whitespace survives); a name
that is empty after stripping is rejected by both front-ends; and two
creation requests whose owner names differ only in surrounding whitespace
collide as duplicates. -/
theorem C10_owner_name_stripped (db : DB) (raw : String) (b0 : ℚ) :
    (∀ acct db1, http_create_account db raw b0 = (Except.ok acct, db1) →
      acct.owner_name = pyStrip raw) ∧
    (∀ acct db1, mcp_create_account db raw b0 = (Except.ok acct, db1) →
      acct.owner_name = pyStrip raw) ∧
    (∀ c, (pyStrip raw).data.head? = some c → isPySpace c = false) ∧
    (∀ c, (pyStrip raw).data.getLast? = some c → isPySpace c = false) ∧
    ((pyStrip raw).data.length = 0 →
      (http_create_account db raw b0).1 = Except.error ApiError.ValidationError ∧
      (mcp_create_account db raw b0).1
        = Except.error "Error: Owner name cannot be empty") ∧
    (∀ raw2 acct db1, pyStrip raw2 = pyStrip raw →
      1 ≤ raw2.data.length → raw2.data.length ≤ 255 →
      http_create_account db raw b0 = (Except.ok acct, db1) →
      http_create_account db1 raw2 b0 = (Except.error ApiError.DuplicateOwner, db1) ∧
      mcp_create_account db1 raw2 b0 =
        (Except.error "Error: Account with this owner name already exists", db1)) := by
  refine ⟨?_, ?_, pyStripList_head?_not_space raw.data,
    pyStripList_getLast?_not_space raw.data, ?_, ?_⟩
  · intro acct db1 h
    obtain ⟨-, -, ha, -⟩ := http_create_account_ok h
    rw [ha, create_account_fst]
  · intro acct db1 h
    obtain ⟨-, -, -, ha, -⟩ := mcp_create_account_ok h
    rw [ha, create_account_fst]
  · intro hlen
    constructor
    · unfold http_create_account
      rw [accountCreate_validate_none_of_empty raw b0 hlen]
    · unfold mcp_create_account
      rw [if_pos hlen]
  · intro raw2 acct db1 he hl1 hl2 h
    obtain ⟨hv, -, -, hdb⟩ := http_create_account_ok h
    obtain ⟨hb0, hne⟩ := accountCreate_validate_some_conds hv
    refine frontend_duplicate_reject db1 raw2 b0 ?_ ?_ hb0 hl1 hl2
    · rw [he, hdb]
      exact get_account_by_owner_name_create db (pyStrip raw) b0
    · rw [he]
      exact hne

/-- Witness for C10 at concrete inputs: creating " alice " persists the
stripped name; both front-ends then reject "alice " (same name modulo
surrounding whitespace) as a duplicate; a whitespace-only name is
rejected. -/
theorem C10_owner_name_stripped_witness :
    (create_account emptyDB "alice" 5).1.owner_name = pyStrip " alice " ∧
    http_create_account (create_account emptyDB "alice" 5).2 "alice " 5
      = (Except.error ApiError.DuplicateOwner, (create_account emptyDB "alice" 5).2) ∧
    mcp_create_account (create_account emptyDB "alice" 5).2 "alice " 5
      = (Except.error "Error: Account with this owner name already exists",
         (create_account emptyDB "alice" 5).2) ∧
    (mcp_create_account emptyDB "  " 5).1
      = Except.error "Error: Owner name cannot be empty" := by
  have H := C10_owner_name_stripped emptyDB " alice " 5
  have h : http_create_account emptyDB " alice " 5
      = (Except.ok (create_account emptyDB "alice" 5).1,
         (create_account emptyDB "alice" 5).2) := rfl
  obtain ⟨hd1, hd2⟩ := H.2.2.2.2.2 "alice " (create_account emptyDB "alice" 5).1
    (create_account emptyDB "alice" 5).2 (by decide) (by decide) (by decide) h
  exact ⟨H.1 _ _ h, hd1, hd2,
    ((C10_owner_name_stripped emptyDB "  " 5).2.2.2.2.1 (by decide)).2⟩

/-! ## Claim C5: validation parity between the two front-ends -/

theorem http_create_validation_error_iff (db : DB) (raw : String) (b0 : ℚ)
    (hl1 : 1 ≤ raw.data.length) (hl2 : raw.data.length ≤ 255) :
    (http_create_account db raw b0).1 = Except.error ApiError.ValidationError
      ↔ ((pyStrip raw).data.length = 0 ∨ b0 < 0) := by
  by_cases hemp : (pyStrip raw).data.length = 0
  · simp only [http_create_account, accountCreate_validate_none_of_empty raw b0 hemp]
    simp [hemp]
  · by_cases hneg : b0 < 0
    · have hv : accountCreate_validate raw b0 = none := by
        unfold accountCreate_validate
        split_ifs <;> rfl
      simp only [http_create_account, hv]
      simp [hneg]
    · have hv := accountCreate_validate_of raw b0 hl1 hl2 hneg hemp
      simp only [http_create_account, hv]
      cases hf : get_account_by_owner_name db (pyStrip raw) with
      | some a =>
        simp [hf, hemp, hneg]
        exact hemp
      | none =>
        simp [hf, hemp, hneg]
        exact hemp

theorem mcp_create_validation_error_iff (db : DB) (raw : String) (b0 : ℚ) :
    ((mcp_create_account db raw b0).1
        = Except.error "Error: Owner name cannot be empty" ∨
      (mcp_create_account db raw b0).1
        = Except.error "Error: Initial balance cannot be negative")
      ↔ ((pyStrip raw).data.length = 0 ∨ b0 < 0) := by
  unfold mcp_create_account
  by_cases hemp : (pyStrip raw).data.length = 0
  · simp [hemp]
  · rw [if_neg hemp]
    by_cases hneg : b0 < 0
    · simp [hemp, hneg]
    · rw [if_neg hneg]
      cases hf : get_account_by_owner_name db (pyStrip raw) with
      | some a =>
        simp [hf, hemp, hneg]
        exact hemp
      | none =>
        simp [hf, hemp, hneg]
        exact hemp

theorem http_deposit_validation_iff (db : DB) (account_id : Nat) (amount : ℚ) :
    (http_deposit db account_id amount).1 = Except.error ApiError.ValidationError
      ↔ amount ≤ 0 := by
  unfold http_deposit
  by_cases h : amount ≤ 0
  · simp [h]
  · rw [if_neg h]
    cases hf : get_account_by_id db account_id with
    | none => simp [hf, h]
    | some a => simp [hf, h]

theorem mcp_deposit_validation_iff (db : DB) (account_id : Nat) (amount : ℚ) :
    (mcp_deposit db account_id amount).1
        = Except.error "Error: Amount must be a positive number"
      ↔ amount ≤ 0 := by
  unfold mcp_deposit
  by_cases h : amount ≤ 0
  · simp [h]
  · rw [if_neg h]
    cases hf : get_account_by_id db account_id with
    | none => simp [hf, h]
    | some a => simp [hf, h]

theorem http_withdraw_validation_iff (db : DB) (account_id : Nat) (amount : ℚ) :
    (http_withdraw db account_id amount).1 = Except.error ApiError.ValidationError
      ↔ amount ≤ 0 := by
  unfold http_withdraw
  by_cases h : amount ≤ 0
  · simp [h]
  · rw [if_neg h]
    cases hf : get_account_by_id db account_id with
    | none => simp [hf, h]
    | some a =>
      by_cases hw : a.balance < amount
      · simp [hf, h, hw]
      · simp [hf, h, hw, withdraw_of_ge db a amount hw]

theorem mcp_withdraw_validation_iff (db : DB) (account_id : Nat) (amount : ℚ) :
    (mcp_withdraw db account_id amount).1
        = Except.error "Error: Amount must be a positive number"
      ↔ amount ≤ 0 := by
  unfold mcp_withdraw
  by_cases h : amount ≤ 0
  · simp [h]
  · rw [if_neg h]
    cases hf : get_account_by_id db account_id with
    | none => simp [hf, h]
    | some a =>
      by_cases hw : a.balance < amount
      · simp [hf, h, hw]
      · simp [hf, h, hw, withdraw_of_ge db a amount hw]

/-- C5 counterexample: for the tool call `get_transactions` with
`limit = 1000` on an existing account, the HTTP front-end rejects the
request (validation error: the limit must lie in [1,100]) while the tool
front-end performs no such validation and invokes the core — so the
tool-invocation front-end does not perform the same input validation as the
HTTP front-end. -/
theorem C5_mcp_pagination_unvalidated_counterexample :
    (http_get_transactions (create_account emptyDB "alice" 0).2 1 1000 0).1
      = Except.error ApiError.ValidationError ∧
    (mcp_get_transactions (create_account emptyDB "alice" 0).2 1 1000).1
      = Except.ok ([], 0) :=
  ⟨rfl, rfl⟩

/-- C5 (amended): the tool front-end performs the same validation as the
HTTP front-end for the owner name (rejected exactly when empty after
stripping), the initial balance (rejected exactly when negative) and the
deposit/withdraw amounts (rejected exactly when non-positive); but it does
not validate the pagination limit — the HTTP front-end rejects any limit
outside [1,100] while the tool front-end invokes the core with whatever
limit was supplied (and exposes no offset parameter at all). -/
theorem C5_validation_agreement_except_pagination (db : DB) (raw : String)
    (b0 : ℚ) (account_id : Nat) (amount : ℚ) (limit : Nat) :
    (1 ≤ raw.data.length → raw.data.length ≤ 255 →
      (((http_create_account db raw b0).1 = Except.error ApiError.ValidationError)
        ↔ ((pyStrip raw).data.length = 0 ∨ b0 < 0)) ∧
      (((mcp_create_account db raw b0).1
           = Except.error "Error: Owner name cannot be empty" ∨
         (mcp_create_account db raw b0).1
           = Except.error "Error: Initial balance cannot be negative")
        ↔ ((pyStrip raw).data.length = 0 ∨ b0 < 0))) ∧
    (((http_deposit db account_id amount).1 = Except.error ApiError.ValidationError)
      ↔ amount ≤ 0) ∧
    (((mcp_deposit db account_id amount).1
        = Except.error "Error: Amount must be a positive number") ↔ amount ≤ 0) ∧
    (((http_withdraw db account_id amount).1 = Except.error ApiError.ValidationError)
      ↔ amount ≤ 0) ∧
    (((mcp_withdraw db account_id amount).1
        = Except.error "Error: Amount must be a positive number") ↔ amount ≤ 0) ∧
    (((limit : Int) < 1 ∨ 100 < (limit : Int)) →
      (http_get_transactions db account_id limit 0).1
        = Except.error ApiError.ValidationError) ∧
    ((get_account_by_id db account_id).isSome →
      (mcp_get_transactions db account_id limit).1
        = Except.ok (get_transactions_by_account db account_id limit 0,
                     get_transaction_count_by_account db account_id)) := by
  refine ⟨fun hl1 hl2 => ⟨http_create_validation_error_iff db raw b0 hl1 hl2,
      mcp_create_validation_error_iff db raw b0⟩,
    http_deposit_validation_iff db account_id amount,
    mcp_deposit_validation_iff db account_id amount,
    http_withdraw_validation_iff db account_id amount,
    mcp_withdraw_validation_iff db account_id amount, ?_, ?_⟩
  · intro hlim
    unfold http_get_transactions
    rw [if_pos]
    rcases hlim with h | h
    · exact Or.inl h
    · exact Or.inr (Or.inl h)
  · intro hsome
    obtain ⟨a, ha⟩ := Option.isSome_iff_exists.mp hsome
    simp only [mcp_get_transactions, ha]

/-- Witness for C5 at concrete inputs: a non-positive deposit amount is
rejected by both front-ends; with account 1 existing, the out-of-range
limit 1000 is rejected by the HTTP front-end but passed straight to the
core by the tool front-end. -/
theorem C5_validation_agreement_except_pagination_witness :
    (http_deposit emptyDB 1 (-3)).1 = Except.error ApiError.ValidationError ∧
    (mcp_deposit emptyDB 1 (-3)).1
      = Except.error "Error: Amount must be a positive number" ∧
    (http_get_transactions (create_account emptyDB "alice" 0).2 1 1000 0).1
      = Except.error ApiError.ValidationError ∧
    (mcp_get_transactions (create_account emptyDB "alice" 0).2 1 1000).1
      = Except.ok (get_transactions_by_account (create_account emptyDB "alice" 0).2 1 1000 0,
                   get_transaction_count_by_account (create_account emptyDB "alice" 0).2 1) := by
  have H1 := C5_validation_agreement_except_pagination emptyDB "alice" 5 1 (-3) 1000
  have H2 := C5_validation_agreement_except_pagination
    (create_account emptyDB "alice" 0).2 "alice" 5 1 (-3) 1000
  exact ⟨(H1.2.1).mpr (by decide), (H1.2.2.1).mpr (by decide),
    H2.2.2.2.2.2.1 (Or.inr (by decide)), H2.2.2.2.2.2.2 (by decide)⟩

/-! ## Claim C1: balance versus recorded ledger -/

theorem sumAmounts_append (p : Transaction → Bool) (ts : List Transaction)
    (t : Transaction) :
    (((ts ++ [t]).filter p).map Transaction.amount).sum
      = ((ts.filter p).map Transaction.amount).sum
        + (if p t then t.amount else 0) := by
  rw [List.filter_append]
  cases h : p t <;> simp [h]

theorem depositSumL_append (ts : List Transaction) (t : Transaction) (aid : Nat) :
    depositSumL (ts ++ [t]) aid = depositSumL ts aid
      + (if t.account_id == aid && t.type == TransactionType.DEPOSIT
         then t.amount else 0) :=
  sumAmounts_append _ ts t

theorem withdrawalSumL_append (ts : List Transaction) (t : Transaction) (aid : Nat) :
    withdrawalSumL (ts ++ [t]) aid = withdrawalSumL ts aid
      + (if t.account_id == aid && t.type == TransactionType.WITHDRAWAL
         then t.amount else 0) :=
  sumAmounts_append _ ts t

theorem depositSumL_eq_zero {ts : List Transaction} {aid : Nat}
    (h : ∀ t ∈ ts, t.account_id ≠ aid) : depositSumL ts aid = 0 := by
  unfold depositSumL
  rw [List.filter_eq_nil_iff.mpr (fun a ha => by simp [h a ha])]
  rfl

theorem withdrawalSumL_eq_zero {ts : List Transaction} {aid : Nat}
    (h : ∀ t ∈ ts, t.account_id ≠ aid) : withdrawalSumL ts aid = 0 := by
  unfold withdrawalSumL
  rw [List.filter_eq_nil_iff.mpr (fun a ha => by simp [h a ha])]
  rfl

theorem find?_accounts_update (l : List Account) (aid : Nat) (acct : Account)
    (nb : ℚ) (h : l.find? (fun a => a.id == aid) = some acct) :
    (l.map (fun a => if a.id == acct.id then { a with balance := nb } else a)).find?
      (fun a => a.id == aid) = some { acct with balance := nb } := by
  induction l with
  | nil => simp at h
  | cons x xs ih =>
    by_cases hx : x.id = aid
    · rw [List.find?_cons_of_pos _ (by simp [hx])] at h
      have hxa : x = acct := by injection h
      subst hxa
      simp only [List.map_cons, beq_self_eq_true, if_true]
      exact List.find?_cons_of_pos _ (by simp [hx])
    · rw [List.find?_cons_of_neg _ (by simp [hx])] at h
      simp only [List.map_cons]
      rw [List.find?_cons_of_neg]
      · exact ih h
      · by_cases hxa : (x.id == acct.id) = true <;> simp [hxa, hx]

/-- The invariant relating an account's stored balance to its recorded
ledger: the balance equals the sum of its DEPOSIT amounts minus the sum of
its WITHDRAWAL amounts. -/
def balanceMatchesLedger (db : DB) (aid : Nat) : Prop :=
  ∃ acct, get_account_by_id db aid = some acct ∧ acct.balance = ledgerSum db aid

theorem applyOp_preserves (db : DB) (aid : Nat) (op : Op)
    (h : balanceMatchesLedger db aid) :
    balanceMatchesLedger (applyOp db aid op) aid := by
  obtain ⟨acct, hfind, hbal⟩ := h
  have hid : acct.id = aid := by simpa using List.find?_some hfind
  unfold applyOp
  rw [show get_account_by_id db aid = some acct from hfind]
  cases op with
  | dep amount =>
    show balanceMatchesLedger (deposit db acct amount).2 aid
    rw [deposit_eq]
    refine ⟨{ acct with balance := acct.balance + amount }, ?_, ?_⟩
    · exact find?_accounts_update db.accounts aid acct (acct.balance + amount) hfind
    · show acct.balance + amount
        = depositSumL (db.transactions ++
            [⟨db.next_transaction_id, acct.id, TransactionType.DEPOSIT, amount,
              db.clock⟩]) aid
          - withdrawalSumL (db.transactions ++
            [⟨db.next_transaction_id, acct.id, TransactionType.DEPOSIT, amount,
              db.clock⟩]) aid
      rw [depositSumL_append, withdrawalSumL_append]
      rw [if_pos (by simp [hid]), if_neg (by simp)]
      have hbal' : acct.balance
          = depositSumL db.transactions aid - withdrawalSumL db.transactions aid := hbal
      rw [hbal']
      ring
  | wd amount =>
    by_cases hlt : acct.balance < amount
    · show balanceMatchesLedger (withdraw db acct amount).2 aid
      rw [withdraw_of_lt db acct amount hlt]
      exact ⟨acct, hfind, hbal⟩
    · show balanceMatchesLedger (withdraw db acct amount).2 aid
      rw [withdraw_of_ge db acct amount hlt]
      refine ⟨{ acct with balance := acct.balance - amount }, ?_, ?_⟩
      · exact find?_accounts_update db.accounts aid acct (acct.balance - amount) hfind
      · show acct.balance - amount
          = depositSumL (db.transactions ++
              [⟨db.next_transaction_id, acct.id, TransactionType.WITHDRAWAL, amount,
                db.clock⟩]) aid
            - withdrawalSumL (db.transactions ++
              [⟨db.next_transaction_id, acct.id, TransactionType.WITHDRAWAL, amount,
                db.clock⟩]) aid
        rw [depositSumL_append, withdrawalSumL_append]
        rw [if_neg (by simp), if_pos (by simp [hid])]
        have hbal' : acct.balance
            = depositSumL db.transactions aid - withdrawalSumL db.transactions aid := hbal
        rw [hbal']
        ring

theorem runOps_preserves (aid : Nat) (ops : List Op) :
    ∀ db, balanceMatchesLedger db aid →
      balanceMatchesLedger (runOps db aid ops) aid := by
  induction ops with
  | nil => exact fun db h => h
  | cons op ops ih => exact fun db h => ih _ (applyOp_preserves db aid op h)

theorem create_account_balanceMatchesLedger (db : DB) (owner : String) (b0 : ℚ)
    (hb0 : 0 ≤ b0)
    (hacc : ∀ a ∈ db.accounts, a.id ≠ db.next_account_id)
    (htx : ∀ t ∈ db.transactions, t.account_id ≠ db.next_account_id) :
    balanceMatchesLedger (create_account db owner b0).2
      (create_account db owner b0).1.id := by
  have hfnone : db.accounts.find? (fun a => a.id == db.next_account_id) = none :=
    List.find?_eq_none.mpr (fun a ha => by simp [hacc a ha])
  rw [create_account_fst]
  by_cases h : 0 < b0
  · rw [create_account_of_pos db owner b0 h]
    refine ⟨⟨db.next_account_id, owner, b0, db.clock⟩, ?_, ?_⟩
    · show (db.accounts ++ [(⟨db.next_account_id, owner, b0, db.clock⟩ : Account)]).find?
        (fun a => a.id == db.next_account_id) = _
      rw [List.find?_append, hfnone]
      simp
    · show (b0 : ℚ)
        = depositSumL (db.transactions ++
            [⟨db.next_transaction_id, db.next_account_id, TransactionType.DEPOSIT,
              b0, db.clock + 1⟩]) db.next_account_id
          - withdrawalSumL (db.transactions ++
            [⟨db.next_transaction_id, db.next_account_id, TransactionType.DEPOSIT,
              b0, db.clock + 1⟩]) db.next_account_id
      rw [depositSumL_append, withdrawalSumL_append,
        depositSumL_eq_zero htx, withdrawalSumL_eq_zero htx]
      rw [if_pos (by simp), if_neg (by simp)]
      ring
  · have hb0' : b0 = 0 := le_antisymm (not_lt.mp h) hb0
    rw [create_account_of_nonpos db owner b0 h]
    refine ⟨⟨db.next_account_id, owner, b0, db.clock⟩, ?_, ?_⟩
    · show (db.accounts ++ [(⟨db.next_account_id, owner, b0, db.clock⟩ : Account)]).find?
        (fun a => a.id == db.next_account_id) = _
      rw [List.find?_append, hfnone]
      simp
    · show (b0 : ℚ)
        = depositSumL db.transactions db.next_account_id
          - withdrawalSumL db.transactions db.next_account_id
      rw [depositSumL_eq_zero htx, withdrawalSumL_eq_zero htx, hb0']
      ring

/-- C1 counterexample: the claimed formula `balance = initial_balance +
Σ(DEPOSIT amounts) − Σ(WITHDRAWAL amounts)` fails immediately after a
successful CreateAccount with initial_balance 100 (the empty operation
sequence): the stored balance is 100, but the creation itself records the
initial balance as a DEPOSIT transaction, so the formula yields 200. -/
theorem C1_initial_balance_formula_counterexample :
    ¬ ((create_account emptyDB "alice" 100).1.balance
        = 100 + ledgerSum (create_account emptyDB "alice" 100).2
            (create_account emptyDB "alice" 100).1.id) := by
  intro h
  have hb : (create_account emptyDB "alice" 100).1.balance = 100 := rfl
  have hl : ledgerSum (create_account emptyDB "alice" 100).2
      (create_account emptyDB "alice" 100).1.id
      = (([(⟨1, 1, TransactionType.DEPOSIT, 100, 1⟩ : Transaction)]).map
          Transaction.amount).sum
        - (([] : List Transaction).map Transaction.amount).sum := rfl
  rw [hb, hl] at h
  simp at h

/-- C1 (amended): for every starting store in which the next account id is
fresh, every owner, every initial_balance ≥ 0 and every sequence of
deposit/withdraw operations addressed to the created account, the account's
stored balance equals the sum of its recorded DEPOSIT amounts minus the sum
of its recorded WITHDRAWAL amounts.  (The initial balance is itself recorded
as a DEPOSIT when positive and contributes no transaction when zero, so the
spec's formula holds exactly in the form without the separate
`initial_balance` term.) -/
theorem C1_balance_equals_ledger_sum (db : DB) (owner : String) (b0 : ℚ)
    (ops : List Op) (hb0 : 0 ≤ b0)
    (hacc : ∀ a ∈ db.accounts, a.id ≠ db.next_account_id)
    (htx : ∀ t ∈ db.transactions, t.account_id ≠ db.next_account_id) :
    ∃ acct, get_account_by_id
        (runOps (create_account db owner b0).2 (create_account db owner b0).1.id ops)
        (create_account db owner b0).1.id = some acct ∧
      acct.balance = ledgerSum
        (runOps (create_account db owner b0).2 (create_account db owner b0).1.id ops)
        (create_account db owner b0).1.id :=
  runOps_preserves (create_account db owner b0).1.id ops _
    (create_account_balanceMatchesLedger db owner b0 hb0 hacc htx)

/-- Witness for C1 at a concrete input: create "alice" with 100, deposit 50,
attempt to withdraw 200 (rejected), withdraw 150. -/
theorem C1_balance_equals_ledger_sum_witness :
    ∃ acct, get_account_by_id
        (runOps (create_account emptyDB "alice" 100).2
          (create_account emptyDB "alice" 100).1.id
          [Op.dep 50, Op.wd 200, Op.wd 150])
        (create_account emptyDB "alice" 100).1.id = some acct ∧
      acct.balance = ledgerSum
        (runOps (create_account emptyDB "alice" 100).2
          (create_account emptyDB "alice" 100).1.id
          [Op.dep 50, Op.wd 200, Op.wd 150])
        (create_account emptyDB "alice" 100).1.id :=
  C1_balance_equals_ledger_sum emptyDB "alice" 100 [Op.dep 50, Op.wd 200, Op.wd 150]
    (by decide) (by decide) (by decide)
